import Mathlib

/-!
Shallow embedding of the ElementRotator widget
(src/src/js/elementrotator.js).

The widget cycles through the element-type children of a container with
fade transitions.  We embed:

* the index/persistence logic (`_initCurrent`, `_advanceCurrent`),
* the scheduling delay computation (`_schedule`),
* the transition state machine (`_advance`), modelled as the temporally
  ordered list of observable events the method produces (synchronous
  style writes, the index mutation with its optional cookie write, the
  animation start, the animation completion together with the handler's
  style writes, and the re-arming of the scheduler),
* the `render` entry point (guard on `childNodes.length`, the cookie
  read via `_initCurrent`, the element-preparation loop, and the
  `this !== 1` check before `_schedule`).

Styles are restricted to the two properties the rotation logic reads
and writes at rest: visibility and opacity (0 or 1 at the endpoints of
a fade; the tween itself is modelled by its completion event setting
the target opacity).  The style state is a total function from element
index to style; writes out of the element range never occur under the
hypotheses of the theorems below.
-/

namespace ElementRotator

/-- Visibility style value, as written by `Dom.setStyle(el, "visibility", v)`. -/
inductive Vis where
  | visible : Vis
  | hidden : Vis
deriving DecidableEq, Repr

/-- Style of one rotated element: the visibility and opacity properties. -/
structure Style where
  vis : Vis
  opacity : Nat
deriving DecidableEq, Repr

/-- Rotator state relevant to index persistence: the `_current` field and the
value of the "current" sub-cookie (none when the cookie is absent). -/
structure RotState where
  current : Nat
  cookie : Option Nat
deriving DecidableEq, Repr

/-- JS truthiness of the value returned by `Cookie.getSub(name, "current", Number)`:
null (absent cookie) and 0 are falsy, every other number is truthy. -/
def cookieTruthy : Option Nat → Bool
  | none => false
  | some k => k != 0

/-- Embedding of `_initCurrent`: when `cookie_persist` is set, read the
"current" sub-cookie; `if(current)` keeps the constructor default 0 for a
falsy read.  Returns the resulting `_current`. -/
def _initCurrent (persist : Bool) (stored : Option Nat) : Nat :=
  if persist then
    if cookieTruthy stored then stored.getD 0 else 0
  else 0

/-- Embedding of `_advanceCurrent`: increments `_current` modulo the number of
elements `n` and, when `cookie_persist` is set, writes the new value to the
"current" sub-cookie. -/
def _advanceCurrent (n : Nat) (persist : Bool) (s : RotState) : RotState :=
  let c := (s.current + 1) % n
  { current := c, cookie := if persist then some c else s.cookie }

/-- Embedding of `_schedule`'s delay computation: `d = 1000 * show_duration`
milliseconds; with `clock_sync` the delay is `d - (t % d)` where `t` is the
current epoch millisecond, otherwise it is `d`. -/
def _schedule (showDuration : Nat) (clockSync : Bool) (t : Nat) : Nat :=
  let d := 1000 * showDuration
  if clockSync then d - t % d else d

/-- Observable events produced by `_advance`, in temporal order:
style writes, the `_advanceCurrent` call (index mutation plus optional
cookie write of the new index), the start of the fade animation
(animated element, target opacity, duration), its completion (which
realizes the tweened opacity), and the re-arming call to `_schedule`. -/
inductive Event where
  | setVisibility : Nat → Vis → Event
  | setOpacity : Nat → Nat → Event
  | advanceCur : Nat → Bool → Event
  | animStart : Nat → Nat → Nat → Event
  | animComplete : Nat → Nat → Event
  | schedule : Event
deriving DecidableEq, Repr

/-- Embedding of `_advance` as its temporally ordered event trace, from index
`c` among `n` elements with persistence flag `persist` and fade duration `fd`.

Non-wrap case (`idxNext !== 0`): the animation on `next` toward opacity 1 is
constructed and its completion handler subscribed, `next` is made visible,
then `_advanceCurrent()` runs and `animate()` starts the fade; on completion
the handler snaps `current` to opacity 0 and visibility hidden and re-arms
the scheduler.

Wrap case (`idxNext === 0`): the animation on `current` toward opacity 0 is
constructed, `next` is made visible and snapped to opacity 1, then
`_advanceCurrent()` runs and the fade starts; on completion the handler hides
`current` and re-arms the scheduler. -/
def _advance (c n : Nat) (persist : Bool) (fd : Nat) : List Event :=
  let next := (c + 1) % n
  if next ≠ 0 then
    [Event.setVisibility next Vis.visible,
     Event.advanceCur next persist,
     Event.animStart next 1 fd,
     Event.animComplete next 1,
     Event.setOpacity c 0,
     Event.setVisibility c Vis.hidden,
     Event.schedule]
  else
    [Event.setVisibility next Vis.visible,
     Event.setOpacity next 1,
     Event.advanceCur next persist,
     Event.animStart c 0 fd,
     Event.animComplete c 0,
     Event.setVisibility c Vis.hidden,
     Event.schedule]

/-- Pointwise update of the style state at element index `i`. -/
def upd (s : Nat → Style) (i : Nat) (f : Style → Style) : Nat → Style :=
  fun j => if j = i then f (s i) else s j

/-- Effect of one event on the style state.  Style writes update the named
property; the animation's completion realizes the tween, leaving the animated
element at the target opacity; the remaining events do not touch styles. -/
def applyEvent (s : Nat → Style) : Event → (Nat → Style)
  | Event.setVisibility i v => upd s i (fun st => { st with vis := v })
  | Event.setOpacity i o => upd s i (fun st => { st with opacity := o })
  | Event.animComplete i o => upd s i (fun st => { st with opacity := o })
  | Event.advanceCur _ _ => s
  | Event.animStart _ _ _ => s
  | Event.schedule => s

/-- Style state after running a trace of events in order. -/
def applyTrace (s : Nat → Style) (tr : List Event) : Nat → Style :=
  tr.foldl applyEvent s

/-- The Idle invariant for `n` elements: the element at the current index `c`
is visible with opacity 1 and every other element is hidden with opacity 0. -/
def Idle (s : Nat → Style) (c n : Nat) : Prop :=
  ∀ i, i < n → s i = if i = c then { vis := Vis.visible, opacity := 1 }
    else { vis := Vis.hidden, opacity := 0 }

/-- A DOM child node, characterized by its `nodeType` (1 for element nodes). -/
structure DomNode where
  nodeType : Nat
deriving DecidableEq, Repr

/-- The `node.nodeType === 1` test of the element-preparation loop. -/
def isElementNode (nd : DomNode) : Bool := nd.nodeType == 1

/-- JS value fragment for the `this !== 1` comparison in `render`: the widget
instance is an object, the literal 1 a number. -/
inductive JSVal where
  | vnum : Int → JSVal
  | vobj : Nat → JSVal
deriving DecidableEq, Repr

/-- JS strict equality on the fragment: values of different types are never
strictly equal; numbers and object references compare by value/identity. -/
def strictEq : JSVal → JSVal → Bool
  | JSVal.vnum a, JSVal.vnum b => a == b
  | JSVal.vobj a, JSVal.vobj b => a == b
  | _, _ => false

/-- Observable outcome of one `render` call: whether the persisted state was
read, the resulting `_current`, the prepared visibility/opacity of the element
children in document order, and whether `_schedule` was invoked. -/
structure RenderResult where
  cookieRead : Bool
  current : Nat
  elements : List Style
  scheduled : Bool
deriving DecidableEq, Repr

/-- Embedding of `render`: guarded by `childNodes.length` (all node types);
when nonzero it calls `_initCurrent` (the cookie read happens iff persistence
is on), prepares each element-type child at ordinal `j` with visibility and
opacity on iff `j` equals the current index, and calls `_schedule` behind the
`this !== 1` check (the instance `this` is modelled as an object value with
identity `selfId`).  When `childNodes.length` is zero nothing happens. -/
def render (nodes : List DomNode) (persist : Bool) (stored : Option Nat)
    (selfId : Nat) : RenderResult :=
  if nodes.length ≠ 0 then
    let current := _initCurrent persist stored
    let elemCount := (nodes.filter isElementNode).length
    { cookieRead := persist,
      current := current,
      elements := (List.range elemCount).map
        (fun j => if j = current then { vis := Vis.visible, opacity := 1 }
          else { vis := Vis.hidden, opacity := 0 }),
      scheduled := !(strictEq (JSVal.vobj selfId) (JSVal.vnum 1)) }
  else
    { cookieRead := false, current := 0, elements := [], scheduled := false }

/-- Helper: iterating `_advanceCurrent` adds the iteration count modulo `n`. -/
lemma advanceCurrent_iterate (n : Nat) (p : Bool) (k : Nat) (s : RotState)
    (hs : s.current < n) :
    ((_advanceCurrent n p)^[k] s).current = (s.current + k) % n := by
  induction k with
  | zero => simp [Nat.mod_eq_of_lt hs]
  | succ k ih =>
    rw [Function.iterate_succ_apply']
    show ((((_advanceCurrent n p)^[k] s).current + 1) % n) = _
    rw [ih, Nat.mod_add_mod, Nat.add_assoc]

/-- Helper: advancing modulo `n ≥ 2` never returns the same index. -/
lemma succ_mod_ne (n c : Nat) (hn : 2 ≤ n) (hc : c < n) : (c + 1) % n ≠ c := by
  rcases Nat.lt_or_ge (c + 1) n with h | h
  · rw [Nat.mod_eq_of_lt h]; omega
  · have hcn : c + 1 = n := by omega
    rw [hcn, Nat.mod_self]; omega

/-- An Idle style state with the element at index `c` showing. -/
def idleAt (c : Nat) : Nat → Style :=
  fun i => if i = c then { vis := Vis.visible, opacity := 1 }
    else { vis := Vis.hidden, opacity := 0 }

/-- C1: if the Idle invariant holds at index c when an advance is initiated
among n ≥ 2 elements, then after the full advance trace (through either
completion handler) it holds at index (c + 1) mod n: exactly that element is
visible with opacity 1 and every other element is hidden with opacity 0. -/
theorem c1_idle_preserved (s : Nat → Style) (c n : Nat) (p : Bool) (fd : Nat)
    (hn : 2 ≤ n) (hc : c < n) (hI : Idle s c n) :
    Idle (applyTrace s (_advance c n p fd)) ((c + 1) % n) n := by
  have hn0 : 0 < n := by omega
  have hk : (c + 1) % n < n := Nat.mod_lt _ hn0
  have hkc : (c + 1) % n ≠ c := succ_mod_ne n c hn hc
  have hIc : s c = { vis := Vis.visible, opacity := 1 } := by
    have := hI c hc
    rwa [if_pos rfl] at this
  have hIk : s ((c + 1) % n) = { vis := Vis.hidden, opacity := 0 } := by
    have := hI ((c + 1) % n) hk
    rwa [if_neg hkc] at this
  intro i hi
  by_cases h0 : (c + 1) % n = 0
  · -- wrap case: fade the current element out over a snapped-opaque element 0
    have hc0 : c ≠ 0 := by
      intro h
      subst h
      rw [Nat.mod_eq_of_lt (by omega)] at h0
      omega
    have htr : _advance c n p fd =
        [Event.setVisibility 0 Vis.visible, Event.setOpacity 0 1,
         Event.advanceCur 0 p, Event.animStart c 0 fd, Event.animComplete c 0,
         Event.setVisibility c Vis.hidden, Event.schedule] := by
      simp [_advance, h0]
    have hI0 : s 0 = { vis := Vis.hidden, opacity := 0 } := h0 ▸ hIk
    rw [htr, h0]
    simp only [applyTrace, List.foldl_cons, List.foldl_nil, applyEvent, upd]
    by_cases hi0 : i = 0 <;> by_cases hic : i = c
    · omega
    · simp [hi0, hic, Ne.symm hc0, hI0]
    · simp [hi0, hic, Ne.symm hc0, hIc, hc0]
    · have hIi : s i = { vis := Vis.hidden, opacity := 0 } := by
        have := hI i hi
        rwa [if_neg hic] at this
      simp [hi0, hic, hIi]
  · -- non-wrap case: fade the next element in over the current element
    have htr : _advance c n p fd =
        [Event.setVisibility ((c + 1) % n) Vis.visible,
         Event.advanceCur ((c + 1) % n) p,
         Event.animStart ((c + 1) % n) 1 fd, Event.animComplete ((c + 1) % n) 1,
         Event.setOpacity c 0, Event.setVisibility c Vis.hidden,
         Event.schedule] := by
      simp [_advance, h0]
    rw [htr]
    simp only [applyTrace, List.foldl_cons, List.foldl_nil, applyEvent, upd]
    by_cases hik : i = (c + 1) % n <;> by_cases hic : i = c
    · omega
    · simp [hik, hic, hkc, Ne.symm hkc, hIk]
    · simp [hik, hic, hkc, Ne.symm hkc, hIc]
    · have hIi : s i = { vis := Vis.hidden, opacity := 0 } := by
        have := hI i hi
        rwa [if_neg hic] at this
      simp [hik, hic, hIi]

/-- C1 witness: three elements, advancing from index 1 to index 2. -/
theorem c1_idle_preserved_witness :
    Idle (applyTrace (idleAt 1) (_advance 1 3 false 2)) ((1 + 1) % 3) 3 :=
  c1_idle_preserved (idleAt 1) 1 3 false 2 (by decide) (by decide)
    (by intro i hi; interval_cases i <;> rfl)

/-- C5: with three elements and current index 2, the advance takes the wrap
branch: element 0 is made visible and snapped to opacity 1 before the fade
starts (after the first three events, which end with the index mutation,
element 0 is already visible at opacity 1), the animation runs on element 2
toward opacity 0 over fd while element 2 still has opacity 1 at that point,
and after completion element 0 is visible at opacity 1 and elements 1 and 2
are hidden at opacity 0. -/
theorem c5_wrap_scenario (p : Bool) (fd : Nat) :
    _advance 2 3 p fd =
      [Event.setVisibility 0 Vis.visible, Event.setOpacity 0 1,
       Event.advanceCur 0 p, Event.animStart 2 0 fd, Event.animComplete 2 0,
       Event.setVisibility 2 Vis.hidden, Event.schedule] ∧
    applyTrace (idleAt 2) ((_advance 2 3 p fd).take 3) 0 =
      { vis := Vis.visible, opacity := 1 } ∧
    applyTrace (idleAt 2) ((_advance 2 3 p fd).take 3) 2 =
      { vis := Vis.visible, opacity := 1 } ∧
    applyTrace (idleAt 2) (_advance 2 3 p fd) 0 =
      { vis := Vis.visible, opacity := 1 } ∧
    applyTrace (idleAt 2) (_advance 2 3 p fd) 1 =
      { vis := Vis.hidden, opacity := 0 } ∧
    applyTrace (idleAt 2) (_advance 2 3 p fd) 2 =
      { vis := Vis.hidden, opacity := 0 } :=
  ⟨rfl, rfl, rfl, rfl, rfl, rfl⟩

/-- C6: in both the wrap and non-wrap branches, the `_advanceCurrent` event —
the index mutation carrying the persistence flag and the new index, which is
the target (c + 1) mod n of the transition — occurs strictly before the
animation start in the advance trace, and no animation start precedes it. -/
theorem c6_mutation_before_fade (c n : Nat) (p : Bool) (fd : Nat)
    (hn : 1 ≤ n) (hc : c < n) :
    ∃ i j : Nat, i < j ∧
      (_advance c n p fd).get? i = some (Event.advanceCur ((c + 1) % n) p) ∧
      (∃ tgt toOp, (_advance c n p fd).get? j = some (Event.animStart tgt toOp fd)) ∧
      ∀ m, m < i → ∀ tgt toOp dr,
        (_advance c n p fd).get? m ≠ some (Event.animStart tgt toOp dr) := by
  by_cases h0 : (c + 1) % n = 0
  · refine ⟨2, 3, by omega, ?_, ⟨c, 0, ?_⟩, ?_⟩
    · simp [_advance, h0]
    · simp [_advance, h0]
    · intro m hm tgt toOp dr
      interval_cases m <;> simp [_advance, h0]
  · refine ⟨1, 2, by omega, ?_, ⟨(c + 1) % n, 1, ?_⟩, ?_⟩
    · simp [_advance, h0]
    · simp [_advance, h0]
    · intro m hm tgt toOp dr
      interval_cases m <;> simp [_advance, h0]

/-- C6 witness at c = 0 among n = 2 elements with persistence on. -/
theorem c6_mutation_before_fade_witness :
    ∃ i j : Nat, i < j ∧
      (_advance 0 2 true 1).get? i = some (Event.advanceCur ((0 + 1) % 2) true) ∧
      (∃ tgt toOp, (_advance 0 2 true 1).get? j = some (Event.animStart tgt toOp 1)) ∧
      ∀ m, m < i → ∀ tgt toOp dr,
        (_advance 0 2 true 1).get? m ≠ some (Event.animStart tgt toOp dr) :=
  c6_mutation_before_fade 0 2 true 1 (by decide) (by decide)

/-- C8 counterexample: with a single element showing (Idle at index 0), one
advance is not a no-op: the wrap-branch fade leaves the single element hidden
with opacity 0 instead of visible with opacity 1. -/
theorem c8_counterexample :
    applyTrace (idleAt 0) (_advance 0 1 false 1) 0 =
      { vis := Vis.hidden, opacity := 0 } ∧
    idleAt 0 0 = { vis := Vis.visible, opacity := 1 } ∧
    applyTrace (idleAt 0) (_advance 0 1 false 1) 0 ≠ idleAt 0 0 := by
  decide

/-- C8 (amended): with exactly one element, each advance takes the wrap
branch targeting the single element 0, does not throw, leaves the current
index at 0 after any number of advances, and re-arms the scheduler when the
animation completes; it is not a style no-op, however: the element is snapped
to opacity 1, faded to 0, and the completion handler hides it, so from any
starting styles the element ends hidden with opacity 0. -/
theorem c8_single_element (p : Bool) (fd : Nat) (s : Nat → Style) (k : Nat)
    (ck : Option Nat) :
    _advance 0 1 p fd =
      [Event.setVisibility 0 Vis.visible, Event.setOpacity 0 1,
       Event.advanceCur 0 p, Event.animStart 0 0 fd, Event.animComplete 0 0,
       Event.setVisibility 0 Vis.hidden, Event.schedule] ∧
    ((_advanceCurrent 1 p)^[k] { current := 0, cookie := ck }).current = 0 ∧
    applyTrace s (_advance 0 1 p fd) 0 = { vis := Vis.hidden, opacity := 0 } := by
  refine ⟨rfl, ?_, rfl⟩
  rw [advanceCurrent_iterate 1 p k { current := 0, cookie := ck } Nat.one_pos]
  simp [Nat.mod_one]

/-- C2 counterexample: with showDuration = 5 (d = 5000) and t = 10000 (a
multiple of d), the clock-sync delay is 5000 = d, which does not lie in
the claimed interval [0, d). -/
theorem c2_counterexample :
    _schedule 5 true 10000 = 5000 ∧ ¬ (_schedule 5 true 10000 < 1000 * 5) := by
  constructor
  · rfl
  · decide

/-- C2 (amended): with clock sync the delay equals d - (t mod d) for
d = 1000 * showDuration and lies in (0, d] (it equals d, not 0, when t is on
a grid boundary); for d = 5000 and t = 12000 the delay is 3000; without
clock sync the delay is exactly d. -/
theorem c2_delay (s t : Nat) (hs : 0 < s) :
    _schedule s true t = 1000 * s - t % (1000 * s) ∧
    0 < _schedule s true t ∧
    _schedule s true t ≤ 1000 * s ∧
    _schedule 5 true 12000 = 3000 ∧
    _schedule s false t = 1000 * s := by
  have hd : 0 < 1000 * s := by omega
  have hm : t % (1000 * s) < 1000 * s := Nat.mod_lt _ hd
  refine ⟨rfl, ?_, ?_, rfl, rfl⟩
  · show 0 < 1000 * s - t % (1000 * s)
    omega
  · show 1000 * s - t % (1000 * s) ≤ 1000 * s
    omega

/-- C2 witness at showDuration = 5, t = 12000. -/
theorem c2_delay_witness :
    _schedule 5 true 12000 = 1000 * 5 - 12000 % (1000 * 5) ∧
    0 < _schedule 5 true 12000 ∧
    _schedule 5 true 12000 ≤ 1000 * 5 ∧
    _schedule 5 true 12000 = 3000 ∧
    _schedule 5 false 12000 = 1000 * 5 :=
  c2_delay 5 12000 (by decide)

/-- C3: one `_advanceCurrent` call from index c among n elements sets the
current index to (c + 1) mod n, and n consecutive calls return it to c. -/
theorem c3_advance_mod (n c : Nat) (p : Bool) (ck : Option Nat) (hc : c < n) :
    (_advanceCurrent n p { current := c, cookie := ck }).current = (c + 1) % n ∧
    ((_advanceCurrent n p)^[n] { current := c, cookie := ck }).current = c := by
  constructor
  · rfl
  · rw [advanceCurrent_iterate n p n { current := c, cookie := ck } hc]
    show (c + n) % n = c
    rw [Nat.add_mod_right, Nat.mod_eq_of_lt hc]

/-- C3 witness at n = 4, c = 2. -/
theorem c3_advance_mod_witness :
    (_advanceCurrent 4 false { current := 2, cookie := none }).current = (2 + 1) % 4 ∧
    ((_advanceCurrent 4 false)^[4] { current := 2, cookie := none }).current = 2 :=
  c3_advance_mod 4 2 false none (by decide)

/-- C4: when an instance with persistence enabled advances from index c to
k = (c + 1) mod n, the "current" sub-cookie is written with k, and a new
instance with persistence enabled reading that stored value initializes its
current index to k. -/
theorem c4_persist_roundtrip (n c k : Nat) (ck : Option Nat)
    (hc : c < n) (hk : (c + 1) % n = k) :
    (_advanceCurrent n true { current := c, cookie := ck }).cookie = some k ∧
    (_advanceCurrent n true { current := c, cookie := ck }).current = k ∧
    _initCurrent true (some k) = k := by
  refine ⟨by simp [_advanceCurrent, hk], by simp [_advanceCurrent, hk], ?_⟩
  by_cases h0 : k = 0
  · simp [_initCurrent, cookieTruthy, h0]
  · simp [_initCurrent, cookieTruthy, h0]

/-- C4 witness at n = 3, c = 2, k = 0 (the wrap write, exercising the falsy
cookie value 0). -/
theorem c4_persist_roundtrip_witness :
    (_advanceCurrent 3 true { current := 2, cookie := none }).cookie = some 0 ∧
    (_advanceCurrent 3 true { current := 2, cookie := none }).current = 0 ∧
    _initCurrent true (some 0) = 0 :=
  c4_persist_roundtrip 3 2 0 none (by decide) (by decide)

/-- C7 counterexample: a container with one text node (nodeType 3) has zero
element-type children, yet render reads the persisted state and calls the
scheduler. -/
theorem c7_counterexample :
    (List.filter isElementNode [({ nodeType := 3 } : DomNode)]).length = 0 ∧
    (render [{ nodeType := 3 }] true (some 1) 0).cookieRead = true ∧
    (render [{ nodeType := 3 }] true (some 1) 0).scheduled = true := by
  decide

/-- C7 (amended): for a container with zero child nodes of any type, render
does nothing: no persisted-state read, no prepared elements, and no
scheduling call; a container with child nodes but zero element-type children
still triggers the cookie read and the scheduling call, because the guard
tests `childNodes.length`, which counts all node types. -/
theorem c7_empty_render (p : Bool) (stored : Option Nat) (selfId : Nat) :
    render [] p stored selfId =
      { cookieRead := false, current := 0, elements := [], scheduled := false } :=
  rfl

/-- C9: `this !== 1` compares an object to a number and is always true, so
whenever the container has at least one child node, render proceeds to call
the scheduler. -/
theorem c9_guard_always_true (selfId : Nat) (nodes : List DomNode) (p : Bool)
    (stored : Option Nat) (h : 1 ≤ nodes.length) :
    strictEq (JSVal.vobj selfId) (JSVal.vnum 1) = false ∧
    (render nodes p stored selfId).scheduled = true := by
  have hne : nodes.length ≠ 0 := by omega
  constructor
  · rfl
  · simp [render, hne, strictEq]

/-- C9 witness: one text-only child suffices for scheduling to be issued. -/
theorem c9_guard_always_true_witness :
    strictEq (JSVal.vobj 0) (JSVal.vnum 1) = false ∧
    (render [{ nodeType := 3 }] false none 0).scheduled = true :=
  c9_guard_always_true 0 [{ nodeType := 3 }] false none (by decide)

/-- C10: with persistence enabled and a stored "current" value k at least the
element-child count, render uses k unchanged as the current index and the
preparation loop marks no element visible: every prepared element is hidden
with opacity 0. -/
theorem c10_stale_index (nodes : List DomNode) (k : Nat) (selfId : Nat)
    (hlen : 1 ≤ nodes.length)
    (hk : (nodes.filter isElementNode).length ≤ k) :
    (render nodes true (some k) selfId).current = k ∧
    ∀ st ∈ (render nodes true (some k) selfId).elements,
      st = { vis := Vis.hidden, opacity := 0 } := by
  have hne : nodes.length ≠ 0 := by omega
  have hcur : _initCurrent true (some k) = k := by
    by_cases h0 : k = 0
    · simp [_initCurrent, cookieTruthy, h0]
    · simp [_initCurrent, cookieTruthy, h0]
  constructor
  · simp [render, hne, hcur]
  · intro st hst
    simp only [render, hne, if_true, ne_eq, not_false_eq_true, if_pos,
      List.mem_map, List.mem_range, hcur] at hst
    obtain ⟨j, hj, hst⟩ := hst
    have hjk : j ≠ k := by omega
    simpa [hjk] using hst.symm

/-- C10 witness: two element children, stored index 5. -/
theorem c10_stale_index_witness :
    (render [{ nodeType := 1 }, { nodeType := 1 }] true (some 5) 0).current = 5 ∧
    ∀ st ∈ (render [{ nodeType := 1 }, { nodeType := 1 }] true (some 5) 0).elements,
      st = { vis := Vis.hidden, opacity := 0 } :=
  c10_stale_index [{ nodeType := 1 }, { nodeType := 1 }] 5 0 (by decide) (by decide)

end ElementRotator
